import Mathlib

/-!
Verification of the multi-omics virtual-lab simulation engine.

The definitions below are a shallow embedding of the numerical core of
`script.js`: the Hill-equation expression model, the Box–Muller noise
model, the explicit-Euler protein update, the disease-risk aggregation,
the weight normalization helper, the parameter-impact classifier and the
simulation driver.  JavaScript numbers are modelled as real numbers;
the ambient random source (`Math.random()`) is modelled by passing the
uniform draws explicitly; the global `state.selectedGenes` list is
passed as an explicit argument.
-/

namespace MultiOmicsLab

noncomputable section

/-- Catalog entry for a gene (numeric fields of `GENE_DATABASE` records). -/
structure Gene where
  symbol : String
  baselineTPM : ℝ
  Vmax : ℝ
  baselineProtein : ℝ
  defaultEta : ℝ

/-- Catalog entry for a disease: `geneWeights` maps a gene symbol to its
weight (`none` models absence of the key), `bias` is the logistic offset. -/
structure Disease where
  name : String
  geneWeights : String → Option ℝ
  bias : ℝ

/-- The per-gene value triple handed to the risk model (`currentValues`). -/
structure OmicsValues where
  genomic : ℝ
  transcriptomic : ℝ
  proteomic : ℝ

/-- Per-layer contribution triple returned by `calculateDiseaseRisk`. -/
structure RiskContributions where
  genomic : ℝ
  transcriptomic : ℝ
  proteomic : ℝ

/-- Result record of `calculateDiseaseRisk`. -/
structure RiskResult where
  risk : ℝ
  contributions : RiskContributions

/-- Hill-equation expression model (`calculateGeneExpression` in `script.js`):
`Kd_nM = Kd * 1000`, `E = Vmax * TF^n / (Kd_nM^n + TF^n)` scaled by the
methylation and mutation suppressors, floored at 0.  `Math.pow` on
non-negative bases is modelled by real `rpow`. -/
def calculateGeneExpression (TF Kd n Vmax methylation mutation : ℝ) : ℝ :=
  let Kd_nM := Kd * 1000
  let numerator := Vmax * TF ^ n
  let denominator := Kd_nM ^ n + TF ^ n
  let E_gene := numerator / denominator * (1 - methylation) * (1 - mutation)
  max 0 E_gene

/-- Box–Muller Gaussian sampler (`gaussianRandom`); the two uniform draws
`u1 u2` that `Math.random()` produces are explicit arguments. -/
def gaussianRandom (mean stdev u1 u2 : ℝ) : ℝ :=
  let z0 := Real.sqrt (-2 * Real.log u1) * Real.cos (2 * Real.pi * u2)
  mean + z0 * stdev

/-- Noise model (`addExpressionNoise`): `T = E * (1 + eps)` floored at 0,
with `eps` drawn from `gaussianRandom 0 noiseLevel`. -/
def addExpressionNoise (E_gene noiseLevel u1 u2 : ℝ) : ℝ :=
  let noise := gaussianRandom 0 noiseLevel u1 u2
  let T := E_gene * (1 + noise)
  max 0 T

/-- Explicit-Euler protein update (`updateProteinLevel`):
`P + (eta*T - degradation*P)*dt` floored at 0. -/
def updateProteinLevel (currentP T eta degradation dt : ℝ) : ℝ :=
  let dP := (eta * T - degradation * currentP) * dt
  let newP := currentP + dP
  max 0 newP

/-- Accumulator of the per-gene loop inside `calculateDiseaseRisk`. -/
structure RiskAccum where
  genomicScore : ℝ
  transcriptomicScore : ℝ
  proteomicScore : ℝ
  totalGenes : ℕ

/-- One iteration of the `for (const gene of state.selectedGenes)` loop of
`calculateDiseaseRisk`: genes without a value entry are skipped; otherwise
the disease weight (`geneWeights[symbol] || 0`) times the baseline-normalized
signal (scaled by the fixed factor 2) is added per layer and the gene is
counted. -/
def riskStep (geneValues : String → Option OmicsValues) (disease : Disease)
    (acc : RiskAccum) (gene : Gene) : RiskAccum :=
  match geneValues gene.symbol with
  | none => acc
  | some values =>
    let weight := (disease.geneWeights gene.symbol).getD 0
    let normG := values.genomic / gene.baselineTPM * 2
    let normT := values.transcriptomic / gene.baselineTPM * 2
    let normP := values.proteomic / gene.baselineProtein * 2
    { genomicScore := acc.genomicScore + weight * normG
      transcriptomicScore := acc.transcriptomicScore + weight * normT
      proteomicScore := acc.proteomicScore + weight * normP
      totalGenes := acc.totalGenes + 1 }

/-- The full per-gene accumulation loop of `calculateDiseaseRisk`. -/
def riskAccum (selectedGenes : List Gene) (geneValues : String → Option OmicsValues)
    (disease : Disease) : RiskAccum :=
  selectedGenes.foldl (riskStep geneValues disease) ⟨0, 0, 0, 0⟩

/-- The averaging step after the loop: each per-layer sum is divided by the
number of contributing genes when that number is positive. -/
def averagedScores (acc : RiskAccum) : ℝ × ℝ × ℝ :=
  if 0 < acc.totalGenes then
    (acc.genomicScore / acc.totalGenes, acc.transcriptomicScore / acc.totalGenes,
      acc.proteomicScore / acc.totalGenes)
  else (acc.genomicScore, acc.transcriptomicScore, acc.proteomicScore)

/-- Disease-risk model (`calculateDiseaseRisk`): early return for zero total
weight; otherwise normalized weights, per-gene accumulation, averaging, the
logistic transform `100 / (1 + exp (-1.5 * score))` and the final clamp to
`[0, 100]`. -/
def calculateDiseaseRisk (selectedGenes : List Gene)
    (geneValues : String → Option OmicsValues) (disease : Disease)
    (w1 w2 w3 : ℝ) : RiskResult :=
  let totalWeight := w1 + w2 + w3
  if totalWeight = 0 then ⟨0, ⟨0, 0, 0⟩⟩
  else
    let normW1 := w1 / totalWeight
    let normW2 := w2 / totalWeight
    let normW3 := w3 / totalWeight
    let scores := averagedScores (riskAccum selectedGenes geneValues disease)
    let combinedScore :=
      normW1 * scores.1 + normW2 * scores.2.1 + normW3 * scores.2.2 + disease.bias
    let risk := 1 / (1 + Real.exp (-1.5 * combinedScore)) * 100
    ⟨max 0 (min 100 risk), ⟨scores.1, scores.2.1, scores.2.2⟩⟩

/-- Plain logistic helper (`sigmoid` in `script.js`). -/
def sigmoid (x : ℝ) : ℝ :=
  1 / (1 + Real.exp (-x))

/-- Weight normalization helper (`normalizeWeights`): the all-zero total is
mapped to the fixed triple `(0.33, 0.33, 0.34)`, otherwise each weight is
divided by the total. -/
def normalizeWeights (w1 w2 w3 : ℝ) : ℝ × ℝ × ℝ :=
  let total := w1 + w2 + w3
  if total = 0 then (0.33, 0.33, 0.34)
  else (w1 / total, w2 / total, w3 / total)

/-- The eleven numeric fields of `state.params`. -/
structure Params where
  tfConcentration : ℝ
  bindingAffinity : ℝ
  hillCoefficient : ℝ
  methylationFactor : ℝ
  mutationSeverity : ℝ
  translationEfficiency : ℝ
  proteinDegradation : ℝ
  expressionNoise : ℝ
  weightGenomics : ℝ
  weightTranscriptomics : ℝ
  weightProteomics : ℝ

/-- One entry of the list produced by `analyzeParameterImpact`. -/
structure Change where
  param : String
  delta : ℝ
  percentChange : ℝ
  impact : String

/-- The parameter keys in the enumeration order of `state.params`, paired
with the display names from `paramNames`. -/
def paramFields : List (String × (Params → ℝ)) :=
  [("TF Concentration", fun p => p.tfConcentration),
   ("Binding Affinity (Kd)", fun p => p.bindingAffinity),
   ("Hill Coefficient", fun p => p.hillCoefficient),
   ("Methylation Factor", fun p => p.methylationFactor),
   ("Mutation Severity", fun p => p.mutationSeverity),
   ("Translation Efficiency", fun p => p.translationEfficiency),
   ("Protein Degradation", fun p => p.proteinDegradation),
   ("Expression Noise", fun p => p.expressionNoise),
   ("Genomics Weight", fun p => p.weightGenomics),
   ("Transcriptomics Weight", fun p => p.weightTranscriptomics),
   ("Proteomics Weight", fun p => p.weightProteomics)]

/-- Impact classification of `analyzeParameterImpact`:
`percentChange > 50 ? 'high' : percentChange > 20 ? 'medium' : 'low'`. -/
def impactOf (percentChange : ℝ) : String :=
  if 50 < percentChange then "high"
  else if 20 < percentChange then "medium" else "low"

/-- The change-detection loop of `analyzeParameterImpact`: a field is
reported when `|params[key] - previousParams[key]| > 0.001`, with
`delta = params[key] - previousParams[key]` and
`percentChange = |delta / previousParams[key]| * 100`. -/
def detectChanges (previousParams params : Params) : List Change :=
  paramFields.filterMap fun f =>
    if 0.001 < |f.2 params - f.2 previousParams| then
      some { param := f.1
             delta := f.2 params - f.2 previousParams
             percentChange := |(f.2 params - f.2 previousParams) / f.2 previousParams| * 100
             impact := impactOf
               (|(f.2 params - f.2 previousParams) / f.2 previousParams| * 100) }
    else none

/-- Descending comparison on `percentChange`, the order used by
`changes.sort((a, b) => b.percentChange - a.percentChange)`. -/
def changeGE (a b : Change) : Prop :=
  b.percentChange ≤ a.percentChange

instance : DecidableRel changeGE :=
  fun a b => inferInstanceAs (Decidable (b.percentChange ≤ a.percentChange))

instance : IsTotal Change changeGE :=
  ⟨fun a b => le_total b.percentChange a.percentChange⟩

instance : IsTrans Change changeGE :=
  ⟨fun _ _ _ hab hbc => le_trans hbc hab⟩

/-- `analyzeParameterImpact`: detect the changed fields, then sort them in
descending order of `percentChange` (JavaScript array sort is stable;
insertion sort is a stable sorting algorithm). -/
def analyzeParameterImpact (previousParams params : Params) : List Change :=
  (detectChanges previousParams params).insertionSort changeGE

/-- The numeric constants of `SIMULATION_CONFIG`. -/
structure SimConfig where
  timeStep : ℝ
  maxTime : ℝ
  updateInterval : ℝ

/-- `SIMULATION_CONFIG = { timeStep: 0.1, maxTime: 50.0, updateInterval: 50 }`. -/
def SIMULATION_CONFIG : SimConfig :=
  { timeStep := 0.1, maxTime := 50.0, updateInterval := 50 }

/-- Per-gene time series: `{ mrna: [...], protein: [...] }`. -/
structure GeneSeries where
  mrna : List ℝ
  protein : List ℝ

/-- `state.simulation.timeSeriesData`: the shared time axis plus the per-gene
series, keyed by the gene (the source keys the object by `gene.symbol`). -/
structure TimeSeriesData where
  time : List ℝ
  genes : List (Gene × GeneSeries)

/-- The `state.simulation` record (the interval handle is an abstract id). -/
structure SimulationState where
  running : Bool
  paused : Bool
  currentTime : ℝ
  intervalId : Option ℕ
  timeSeriesData : TimeSeriesData

/-- The engine-relevant part of the global `state` object. -/
structure LabState where
  selectedGenes : List Gene
  simulation : SimulationState

/-- `initializeSimulation`: reset the clock to 0, clear the time axis and
give every selected gene an empty mRNA series and a protein series seeded
with its `baselineProtein`. -/
def initializeSimulation (s : LabState) : LabState :=
  { s with
    simulation := { s.simulation with
      currentTime := 0
      timeSeriesData :=
        { time := []
          genes := s.selectedGenes.map fun g =>
            (g, { mrna := [], protein := [g.baselineProtein] }) } } }

/-- The per-gene body of `simulationStep`: read the last protein sample (or
`baselineProtein` when the series is empty), run Expression → Noise →
Protein with the current parameters and append one sample to each series.
`draws` supplies the two uniform draws consumed by the noise model. -/
def stepGene (params : Params) (dt : ℝ) (draws : String → ℝ × ℝ)
    (gene : Gene) (gs : GeneSeries) : GeneSeries × OmicsValues :=
  let currentProtein := gs.protein.getLast?.getD gene.baselineProtein
  let E_gene := calculateGeneExpression params.tfConcentration params.bindingAffinity
    params.hillCoefficient gene.Vmax params.methylationFactor params.mutationSeverity
  let uv := draws gene.symbol
  let T := addExpressionNoise E_gene params.expressionNoise uv.1 uv.2
  let P := updateProteinLevel currentProtein T params.translationEfficiency
    params.proteinDegradation dt
  ({ mrna := gs.mrna ++ [T], protein := gs.protein ++ [P] }, ⟨E_gene, T, P⟩)

/-- One `simulationStep`: update every selected gene's series, advance the
clock by `SIMULATION_CONFIG.timeStep` and record the new time. -/
def simulationStep (params : Params) (draws : String → ℝ × ℝ)
    (s : LabState) : LabState :=
  let dt := SIMULATION_CONFIG.timeStep
  { s with
    simulation := { s.simulation with
      currentTime := s.simulation.currentTime + dt
      timeSeriesData :=
        { time := s.simulation.timeSeriesData.time ++ [s.simulation.currentTime + dt]
          genes := s.simulation.timeSeriesData.genes.map fun e =>
            (e.1, (stepGene params dt draws e.1 e.2).1) } } }

/-- Iterate `simulationStep` `n` times; `draws k` supplies the random draws
consumed by step `k`. -/
def runSteps (params : Params) (draws : ℕ → String → ℝ × ℝ)
    (s : LabState) : ℕ → LabState
  | 0 => s
  | n + 1 => simulationStep params (draws n) (runSteps params draws s n)

/-- The stopping test at the end of `simulationStep`:
`state.simulation.currentTime >= SIMULATION_CONFIG.maxTime`. -/
def simulationComplete (s : LabState) : Prop :=
  s.simulation.currentTime ≥ SIMULATION_CONFIG.maxTime

/-- `startSimulation`: refuse when no gene is selected (the source shows an
alert and returns with no state change); otherwise initialize if the clock
is at 0, set the running/paused flags and store the interval handle created
by `setInterval`. -/
def startSimulation (handle : ℕ) (s : LabState) : LabState :=
  if s.selectedGenes.length = 0 then s
  else
    let s1 := if s.simulation.currentTime = 0 then initializeSimulation s else s
    { s1 with
      simulation := { s1.simulation with
        running := true
        paused := false
        intervalId := some handle } }

end

/-- C1: for every disease, weight triple and gene-value map,
`calculateDiseaseRisk` returns a risk in `[0, 100]`; and whenever
`w1 + w2 + w3 = 0` it returns risk 0 with zero per-layer contributions via
the early return that precedes the weight division. -/
theorem calculateDiseaseRisk_range_zeroWeights (selectedGenes : List Gene)
    (geneValues : String → Option OmicsValues) (disease : Disease) (w1 w2 w3 : ℝ) :
    (0 ≤ (calculateDiseaseRisk selectedGenes geneValues disease w1 w2 w3).risk ∧
      (calculateDiseaseRisk selectedGenes geneValues disease w1 w2 w3).risk ≤ 100) ∧
    (w1 + w2 + w3 = 0 →
      calculateDiseaseRisk selectedGenes geneValues disease w1 w2 w3 = ⟨0, ⟨0, 0, 0⟩⟩) := by
  constructor
  · by_cases h : w1 + w2 + w3 = 0
    · simp [calculateDiseaseRisk, h]
    · simp only [calculateDiseaseRisk, if_neg h]
      exact ⟨le_max_left _ _, max_le (by norm_num) (min_le_left _ _)⟩
  · intro h
    simp [calculateDiseaseRisk, h]

theorem calculateDiseaseRisk_range_zeroWeights_witness :
    (0 : ℝ) + 0 + 0 = 0 ∧
    calculateDiseaseRisk [] (fun _ => none) ⟨"Cancer", fun _ => none, 0⟩ 0 0 0 =
      ⟨0, ⟨0, 0, 0⟩⟩ :=
  ⟨by norm_num,
    (calculateDiseaseRisk_range_zeroWeights [] (fun _ => none)
      ⟨"Cancer", fun _ => none, 0⟩ 0 0 0).2 (by norm_num)⟩

/-- C2: one protein step returns exactly `max 0 (P + (eta*T - delta*P)*dt)`,
is never negative, and at `P = 320.5, T = 50, eta = 0.7, delta = 0.1,
dt = 0.1` returns exactly `320.795`. -/
theorem updateProteinLevel_spec (P T eta delta dt : ℝ) :
    updateProteinLevel P T eta delta dt = max 0 (P + (eta * T - delta * P) * dt) ∧
    0 ≤ updateProteinLevel P T eta delta dt ∧
    updateProteinLevel 320.5 50 0.7 0.1 0.1 = 320.795 := by
  refine ⟨rfl, le_max_left _ _, ?_⟩
  show max 0 (320.5 + ((0.7 : ℝ) * 50 - 0.1 * 320.5) * 0.1) = 320.795
  rw [max_eq_right (by norm_num)]
  norm_num

/-- C3: with `sigma = 0` the noise model returns its input unchanged for any
`E ≥ 0`, whatever the two underlying uniform draws are. -/
theorem addExpressionNoise_zero_sigma (E u1 u2 : ℝ) (hE : 0 ≤ E) :
    addExpressionNoise E 0 u1 u2 = E := by
  show max 0 (E * (1 + gaussianRandom 0 0 u1 u2)) = E
  have hg : gaussianRandom 0 0 u1 u2 = 0 := by
    show 0 + Real.sqrt (-2 * Real.log u1) * Real.cos (2 * Real.pi * u2) * 0 = 0
    ring
  rw [hg, show E * (1 + 0) = E by ring]
  exact max_eq_right hE

theorem addExpressionNoise_zero_sigma_witness :
    (0 : ℝ) ≤ 5 ∧ addExpressionNoise 5 0 0 0 = 5 :=
  ⟨by norm_num, addExpressionNoise_zero_sigma 5 0 0 (by norm_num)⟩

/-- C4: for `tf ≥ 0`, `kd > 0`, `n > 0` the expression model is non-negative,
and at `tf = 0` it returns exactly 0 irrespective of the other parameters. -/
theorem calculateGeneExpression_nonneg_zero (TF Kd n Vmax methylation mutation : ℝ)
    (hTF : 0 ≤ TF) (hKd : 0 < Kd) (hn : 0 < n) :
    0 ≤ calculateGeneExpression TF Kd n Vmax methylation mutation ∧
    calculateGeneExpression 0 Kd n Vmax methylation mutation = 0 := by
  constructor
  · exact le_max_left _ _
  · show max 0 (Vmax * (0 : ℝ) ^ n / ((Kd * 1000) ^ n + (0 : ℝ) ^ n)
      * (1 - methylation) * (1 - mutation)) = 0
    rw [Real.zero_rpow hn.ne']
    simp

theorem calculateGeneExpression_nonneg_zero_witness :
    (0 : ℝ) ≤ 5 ∧ (0 : ℝ) < 1 ∧ (0 : ℝ) < 2 ∧
    (0 ≤ calculateGeneExpression 5 1 2 100 0 0 ∧
      calculateGeneExpression 0 1 2 100 0 0 = 0) :=
  ⟨by norm_num, by norm_num, by norm_num,
    calculateGeneExpression_nonneg_zero 5 1 2 100 0 0
      (by norm_num) (by norm_num) (by norm_num)⟩

/-- C9: starting with an empty gene selection is refused with no state
change: `startSimulation` returns the state unchanged. -/
theorem startSimulation_empty_refused (handle : ℕ) (s : LabState)
    (h : s.selectedGenes = []) : startSimulation handle s = s := by
  simp [startSimulation, h]

theorem startSimulation_empty_refused_witness :
    (LabState.mk [] ⟨false, false, 0, none, ⟨[], []⟩⟩).selectedGenes = [] ∧
    startSimulation 1 (LabState.mk [] ⟨false, false, 0, none, ⟨[], []⟩⟩) =
      LabState.mk [] ⟨false, false, 0, none, ⟨[], []⟩⟩ :=
  ⟨rfl, startSimulation_empty_refused 1 _ rfl⟩

/-- C10: `normalizeWeights` maps an all-zero total to the fixed triple
`(0.33, 0.33, 0.34)`, whose components sum to 1, and divides by the total
otherwise. -/
theorem normalizeWeights_spec (w1 w2 w3 : ℝ) :
    (w1 + w2 + w3 = 0 →
      normalizeWeights w1 w2 w3 = (0.33, 0.33, 0.34) ∧ (0.33 : ℝ) + 0.33 + 0.34 = 1) ∧
    (w1 + w2 + w3 ≠ 0 →
      normalizeWeights w1 w2 w3 =
        (w1 / (w1 + w2 + w3), w2 / (w1 + w2 + w3), w3 / (w1 + w2 + w3))) := by
  constructor
  · intro h
    exact ⟨by simp [normalizeWeights, h], by norm_num⟩
  · intro h
    simp [normalizeWeights, h]

theorem normalizeWeights_spec_witness :
    ((0 : ℝ) + 0 + 0 = 0 ∧
      (normalizeWeights 0 0 0 = (0.33, 0.33, 0.34) ∧ (0.33 : ℝ) + 0.33 + 0.34 = 1)) ∧
    ((1 : ℝ) + 2 + 3 ≠ 0 ∧
      normalizeWeights 1 2 3 = (1 / (1 + 2 + 3), 2 / (1 + 2 + 3), 3 / (1 + 2 + 3))) :=
  ⟨⟨by norm_num, (normalizeWeights_spec 0 0 0).1 (by norm_num)⟩,
    ⟨by norm_num, (normalizeWeights_spec 1 2 3).2 (by norm_num)⟩⟩

/-- The saturating ratio `a / (c + a)` is monotone in `a` on `a ≥ 0` for a
positive offset `c`. -/
theorem hillRatio_mono {a b c : ℝ} (ha : 0 ≤ a) (hab : a ≤ b) (hc : 0 < c) :
    a / (c + a) ≤ b / (c + b) := by
  have hca : 0 < c + a := by linarith
  have hcb : 0 < c + b := by linarith
  rw [div_le_div_iff hca hcb]
  nlinarith [mul_le_mul_of_nonneg_right hab hc.le]

/-- C7: for fixed `kd > 0`, `n > 0` and arbitrary `vmax`, methylation and
mutation, the expression model is monotonically non-decreasing in `tf`
over `tf ≥ 0`. -/
theorem calculateGeneExpression_mono (Kd n Vmax methylation mutation tf1 tf2 : ℝ)
    (hKd : 0 < Kd) (hn : 0 < n) (h1 : 0 ≤ tf1) (h12 : tf1 ≤ tf2) :
    calculateGeneExpression tf1 Kd n Vmax methylation mutation ≤
      calculateGeneExpression tf2 Kd n Vmax methylation mutation := by
  have hK : (0 : ℝ) < Kd * 1000 := by positivity
  have hc : 0 < (Kd * 1000) ^ n := Real.rpow_pos_of_pos hK n
  have ha : 0 ≤ tf1 ^ n := Real.rpow_nonneg h1 n
  have hb : 0 ≤ tf2 ^ n := Real.rpow_nonneg (le_trans h1 h12) n
  have hab : tf1 ^ n ≤ tf2 ^ n := Real.rpow_le_rpow h1 h12 hn.le
  have hr : tf1 ^ n / ((Kd * 1000) ^ n + tf1 ^ n) ≤
      tf2 ^ n / ((Kd * 1000) ^ n + tf2 ^ n) := hillRatio_mono ha hab hc
  have hr1 : 0 ≤ tf1 ^ n / ((Kd * 1000) ^ n + tf1 ^ n) :=
    div_nonneg ha (add_pos_of_pos_of_nonneg hc ha).le
  have hr2 : 0 ≤ tf2 ^ n / ((Kd * 1000) ^ n + tf2 ^ n) :=
    div_nonneg hb (add_pos_of_pos_of_nonneg hc hb).le
  show max 0 (Vmax * tf1 ^ n / ((Kd * 1000) ^ n + tf1 ^ n)
        * (1 - methylation) * (1 - mutation)) ≤
      max 0 (Vmax * tf2 ^ n / ((Kd * 1000) ^ n + tf2 ^ n)
        * (1 - methylation) * (1 - mutation))
  have e1 : Vmax * tf1 ^ n / ((Kd * 1000) ^ n + tf1 ^ n)
        * (1 - methylation) * (1 - mutation)
      = Vmax * (1 - methylation) * (1 - mutation)
        * (tf1 ^ n / ((Kd * 1000) ^ n + tf1 ^ n)) := by ring
  have e2 : Vmax * tf2 ^ n / ((Kd * 1000) ^ n + tf2 ^ n)
        * (1 - methylation) * (1 - mutation)
      = Vmax * (1 - methylation) * (1 - mutation)
        * (tf2 ^ n / ((Kd * 1000) ^ n + tf2 ^ n)) := by ring
  rw [e1, e2]
  rcases le_or_lt 0 (Vmax * (1 - methylation) * (1 - mutation)) with hC | hC
  · exact max_le_max le_rfl (mul_le_mul_of_nonneg_left hr hC)
  · have hx1 : Vmax * (1 - methylation) * (1 - mutation)
        * (tf1 ^ n / ((Kd * 1000) ^ n + tf1 ^ n)) ≤ 0 := by nlinarith
    have hx2 : Vmax * (1 - methylation) * (1 - mutation)
        * (tf2 ^ n / ((Kd * 1000) ^ n + tf2 ^ n)) ≤ 0 := by nlinarith
    rw [max_eq_left hx1, max_eq_left hx2]

theorem calculateGeneExpression_mono_witness :
    (0 : ℝ) < 1 ∧ (0 : ℝ) < 2 ∧ (0 : ℝ) ≤ 1 ∧ (1 : ℝ) ≤ 2 ∧
    calculateGeneExpression 1 1 2 100 0 0 ≤ calculateGeneExpression 2 1 2 100 0 0 :=
  ⟨by norm_num, by norm_num, by norm_num, by norm_num,
    calculateGeneExpression_mono 1 2 100 0 0 1 2
      (by norm_num) (by norm_num) (by norm_num) (by norm_num)⟩

/-- Dilution arithmetic: dividing an unchanged sum by one more gene scales
the average by `n / (n + 1)`. -/
theorem dilutionFactor (S : ℝ) (n : ℕ) (hn : 0 < n) :
    S / ((n : ℝ) + 1) = S / (n : ℝ) * ((n : ℝ) / ((n : ℝ) + 1)) := by
  have hne : (n : ℝ) ≠ 0 := Nat.cast_ne_zero.mpr hn.ne'
  have hne1 : (n : ℝ) + 1 ≠ 0 := by positivity
  field_simp

/-- C6: a selected gene that has a value entry but whose symbol carries
disease weight 0 (in particular: is absent from `geneWeights`) leaves all
three per-layer sums unchanged yet is counted in `totalGenes`, so each
averaged per-layer contribution shrinks by the factor `n / (n + 1)`. -/
theorem riskAccum_zero_weight_dilutes (selectedGenes : List Gene)
    (geneValues : String → Option OmicsValues) (disease : Disease)
    (g : Gene) (v : OmicsValues)
    (hv : geneValues g.symbol = some v)
    (hw : (disease.geneWeights g.symbol).getD 0 = 0) :
    (riskAccum (selectedGenes ++ [g]) geneValues disease).genomicScore =
      (riskAccum selectedGenes geneValues disease).genomicScore ∧
    (riskAccum (selectedGenes ++ [g]) geneValues disease).transcriptomicScore =
      (riskAccum selectedGenes geneValues disease).transcriptomicScore ∧
    (riskAccum (selectedGenes ++ [g]) geneValues disease).proteomicScore =
      (riskAccum selectedGenes geneValues disease).proteomicScore ∧
    (riskAccum (selectedGenes ++ [g]) geneValues disease).totalGenes =
      (riskAccum selectedGenes geneValues disease).totalGenes + 1 ∧
    (0 < (riskAccum selectedGenes geneValues disease).totalGenes →
      (averagedScores (riskAccum (selectedGenes ++ [g]) geneValues disease)).1 =
        (averagedScores (riskAccum selectedGenes geneValues disease)).1 *
          (((riskAccum selectedGenes geneValues disease).totalGenes : ℝ) /
            (((riskAccum selectedGenes geneValues disease).totalGenes : ℝ) + 1)) ∧
      (averagedScores (riskAccum (selectedGenes ++ [g]) geneValues disease)).2.1 =
        (averagedScores (riskAccum selectedGenes geneValues disease)).2.1 *
          (((riskAccum selectedGenes geneValues disease).totalGenes : ℝ) /
            (((riskAccum selectedGenes geneValues disease).totalGenes : ℝ) + 1)) ∧
      (averagedScores (riskAccum (selectedGenes ++ [g]) geneValues disease)).2.2 =
        (averagedScores (riskAccum selectedGenes geneValues disease)).2.2 *
          (((riskAccum selectedGenes geneValues disease).totalGenes : ℝ) /
            (((riskAccum selectedGenes geneValues disease).totalGenes : ℝ) + 1))) := by
  have hb : riskAccum (selectedGenes ++ [g]) geneValues disease =
      { riskAccum selectedGenes geneValues disease with
        totalGenes := (riskAccum selectedGenes geneValues disease).totalGenes + 1 } := by
    rw [riskAccum, List.foldl_append]
    show riskStep geneValues disease (riskAccum selectedGenes geneValues disease) g = _
    rw [riskStep, hv, hw]
    simp
  refine ⟨by rw [hb], by rw [hb], by rw [hb], by rw [hb], ?_⟩
  intro hn
  rw [hb]
  rw [averagedScores, averagedScores, if_pos hn]
  rw [if_pos (show 0 <
    ({ riskAccum selectedGenes geneValues disease with
      totalGenes := (riskAccum selectedGenes geneValues disease).totalGenes + 1
      } : RiskAccum).totalGenes from Nat.succ_pos _)]
  refine ⟨?_, ?_, ?_⟩ <;>
    simpa using dilutionFactor _ _ hn

theorem riskAccum_zero_weight_dilutes_witness :
    (fun _ : String => some (⟨1, 1, 1⟩ : OmicsValues)) "G2" = some ⟨1, 1, 1⟩ ∧
    (((⟨"D", fun _ => none, 0⟩ : Disease).geneWeights "G2").getD 0 = 0) ∧
    (riskAccum ([⟨"G1", 1, 1, 1, 1⟩] ++ [⟨"G2", 1, 1, 1, 1⟩])
        (fun _ => some ⟨1, 1, 1⟩) ⟨"D", fun _ => none, 0⟩).totalGenes =
      (riskAccum [⟨"G1", 1, 1, 1, 1⟩]
        (fun _ => some ⟨1, 1, 1⟩) ⟨"D", fun _ => none, 0⟩).totalGenes + 1 :=
  ⟨rfl, rfl,
    (riskAccum_zero_weight_dilutes [⟨"G1", 1, 1, 1, 1⟩] (fun _ => some ⟨1, 1, 1⟩)
      ⟨"D", fun _ => none, 0⟩ ⟨"G2", 1, 1, 1, 1⟩ ⟨1, 1, 1⟩ rfl rfl).2.2.2.1⟩

/-- C8: the impact analysis reports exactly the fields whose absolute
difference exceeds `0.001`; each reported entry carries
`percentChange = |delta / previous| * 100` and the high / medium / low
classification at the 50 / 20 thresholds; and the returned list is sorted
in descending order of `percentChange`. -/
theorem analyzeParameterImpact_spec (previousParams params : Params) :
    List.Sorted changeGE (analyzeParameterImpact previousParams params) ∧
    ∀ c : Change, c ∈ analyzeParameterImpact previousParams params ↔
      ∃ f ∈ paramFields, 0.001 < |f.2 params - f.2 previousParams| ∧
        c.param = f.1 ∧
        c.delta = f.2 params - f.2 previousParams ∧
        c.percentChange = |c.delta / f.2 previousParams| * 100 ∧
        c.impact = (if 50 < c.percentChange then "high"
          else if 20 < c.percentChange then "medium" else "low") := by
  refine ⟨List.sorted_insertionSort changeGE _, ?_⟩
  intro c
  simp only [analyzeParameterImpact, List.mem_insertionSort, detectChanges,
    List.mem_filterMap]
  constructor
  · rintro ⟨f, hf, hsome⟩
    by_cases hc : 0.001 < |f.2 params - f.2 previousParams|
    · rw [if_pos hc] at hsome
      obtain rfl := Option.some.inj hsome
      exact ⟨f, hf, hc, rfl, rfl, rfl, rfl⟩
    · rw [if_neg hc] at hsome
      exact Option.noConfusion hsome
  · rintro ⟨f, hf, hc, hparam, hdelta, hpc, himp⟩
    refine ⟨f, hf, ?_⟩
    rw [if_pos hc]
    obtain ⟨cp, cd, cpc, ci⟩ := c
    rw [hdelta] at hpc
    rw [hpc] at himp
    rw [Option.some.injEq, Change.mk.injEq]
    exact ⟨hparam.symm, hdelta.symm, hpc.symm, himp.symm⟩

theorem analyzeParameterImpact_spec_witness :
    List.Sorted changeGE (analyzeParameterImpact
      ⟨50, 1, 2, 0, 0, 0.7, 0.1, 0.1, 0.3, 0.4, 0.3⟩
      ⟨50, 1, 2, 0, 0, 0.7, 0.1, 0.1, 0.3, 0.4, 0.3⟩) :=
  (analyzeParameterImpact_spec
    ⟨50, 1, 2, 0, 0, 0.7, 0.1, 0.1, 0.3, 0.4, 0.3⟩
    ⟨50, 1, 2, 0, 0, 0.7, 0.1, 0.1, 0.3, 0.4, 0.3⟩).1

/-- The clock advances by exactly `timeStep` per step. -/
theorem runSteps_time (params : Params) (draws : ℕ → String → ℝ × ℝ)
    (s : LabState) : ∀ n : ℕ,
    (runSteps params draws s n).simulation.currentTime =
      s.simulation.currentTime + n * SIMULATION_CONFIG.timeStep := by
  intro n
  induction n with
  | zero => simp [runSteps]
  | succ k ih =>
    show (simulationStep params (draws k)
      (runSteps params draws s k)).simulation.currentTime = _
    simp only [simulationStep, ih]
    push_cast
    ring

/-- Shorthand for the per-gene series list stored in a lab state. -/
def seriesOf (s : LabState) : List (Gene × GeneSeries) :=
  s.simulation.timeSeriesData.genes

/-- C5: from a freshly initialized simulation, the per-gene series keys
stay equal to the selection, after `n` steps every selected gene has
exactly `n` mRNA samples and `n + 1` protein samples (the seeded baseline
plus one appended sample per step), and with `maxTime = 50`, `dt = 0.1`
the completion condition first holds after exactly 500 steps. -/
theorem simulation_run_series_spec (s0 : LabState) (params : Params)
    (draws : ℕ → String → ℝ × ℝ) :
    (∀ n : ℕ, (seriesOf (runSteps params draws (initializeSimulation s0) n)).map
        (fun e => e.1) = s0.selectedGenes) ∧
    (∀ n : ℕ, ∀ e ∈ seriesOf (runSteps params draws (initializeSimulation s0) n),
      e.2.mrna.length = n ∧ e.2.protein.length = n + 1) ∧
    simulationComplete (runSteps params draws (initializeSimulation s0) 500) ∧
    ¬ simulationComplete (runSteps params draws (initializeSimulation s0) 499) := by
  have htime : ∀ n : ℕ,
      (runSteps params draws (initializeSimulation s0) n).simulation.currentTime =
        n * SIMULATION_CONFIG.timeStep := by
    intro n
    rw [runSteps_time]
    simp [initializeSimulation]
  refine ⟨?_, ?_, ?_, ?_⟩
  · intro n
    induction n with
    | zero => simp [seriesOf, runSteps, initializeSimulation, List.map_map, Function.comp_def]
    | succ k ih =>
      show ((seriesOf (simulationStep params (draws k)
          (runSteps params draws (initializeSimulation s0) k))).map
        fun e => e.1) = s0.selectedGenes
      simp only [seriesOf, simulationStep, List.map_map]
      simpa [seriesOf, Function.comp] using ih
  · intro n
    induction n with
    | zero =>
      intro e he
      simp only [seriesOf, runSteps, initializeSimulation, List.mem_map] at he
      obtain ⟨g, hg, rfl⟩ := he
      simp
    | succ k ih =>
      intro e he
      simp only [seriesOf, runSteps, simulationStep, List.mem_map] at he
      obtain ⟨x, hx, rfl⟩ := he
      have hlen := ih x hx
      constructor
      · show ((stepGene params SIMULATION_CONFIG.timeStep (draws k) x.1 x.2).1).mrna.length
          = k + 1
        simp [stepGene, hlen.1]
      · show ((stepGene params SIMULATION_CONFIG.timeStep (draws k) x.1 x.2).1).protein.length
          = k + 1 + 1
        simp [stepGene, hlen.2]
  · show _ ≥ SIMULATION_CONFIG.maxTime
    rw [htime 500]
    norm_num [SIMULATION_CONFIG]
  · simp only [simulationComplete]
    rw [htime 499]
    norm_num [SIMULATION_CONFIG]

theorem simulation_run_series_spec_witness :
    simulationComplete (runSteps ⟨50, 1, 2, 0, 0, 0.7, 0.1, 0.1, 0.3, 0.4, 0.3⟩
      (fun _ _ => (0.5, 0.5))
      (initializeSimulation
        ⟨[⟨"TP53", 45.2, 100, 320.5, 0.7⟩], ⟨false, false, 0, none, ⟨[], []⟩⟩⟩) 500) :=
  (simulation_run_series_spec
    ⟨[⟨"TP53", 45.2, 100, 320.5, 0.7⟩], ⟨false, false, 0, none, ⟨[], []⟩⟩⟩
    ⟨50, 1, 2, 0, 0, 0.7, 0.1, 0.1, 0.3, 0.4, 0.3⟩ (fun _ _ => (0.5, 0.5))).2.2.1

end MultiOmicsLab
